import Mathlib

/-!
Shallow embedding of the Pulselytics ML core (`backend/ml_models/`): the
feature builder (`features.py`), the engagement predictor (`predictor.py`),
the anomaly detector (`anomaly_detector.py`) and model persistence
(`storage.py`).

Modelling conventions:
* Python / numpy floats are idealised as rationals (`ℚ`).
* A pandas missing value (`NaN` / `NaT`) is `Option.none`; pandas
  arithmetic propagates `none`, and pandas comparisons against `none`
  are `false`, exactly as NaN comparisons are in numpy.
* Pandas float division that can produce infinities is given the explicit
  codomain `PFloat` (finite value, `inf`, `neginf` or `nan`).
* Opaque library models (the fitted `IsolationForest`, the fitted
  gradient-boosted regressors, the float square root used inside
  `Series.std`) are parameters of the embedded functions: the embedding
  proves properties that hold for every behaviour of those black boxes,
  and instantiates them with concrete functions for concrete runs.
* Fallible Python code (dictionary lookups that can raise `KeyError`)
  returns `Except`.

The file is organised with all definitions first, followed by all lemmas
and theorems.
-/

namespace Pulselytics

/-! ### Numeric helpers -/

/-- Python `int(x)` applied to a float: truncation toward zero. -/
def truncToZero (q : ℚ) : ℤ := if 0 ≤ q then ⌊q⌋ else ⌈q⌉

/-- Python `round(x, 2)` idealised over `ℚ` (round half up; the banker's
rounding of CPython differs only on exact half-way cases, which no claim
in this development exercises). -/
def round2 (q : ℚ) : ℚ := (⌊q * 100 + 1/2⌋ : ℚ) / 100

/-- Python `round(x, 1)` idealised over `ℚ` (see `round2`). -/
def round1 (q : ℚ) : ℚ := (⌊q * 10 + 1/2⌋ : ℚ) / 10

/-! ### Feature tables and `align_feature_columns` (`features.py`)

A pandas `DataFrame` restricted to what `align_feature_columns` observes:
an ordered association list from column name to column content.  `α` is
the content of one column (for a single-row frame, one scalar). -/

abbrev Table (α : Type) := List (String × α)

/-- The ordered column names of a table (`df.columns`). -/
def colNames {α : Type} (t : Table α) : List String := t.map Prod.fst

/-- Column selection `df[c]`, with a default for a missing column (the
embedded `align_feature_columns` only ever selects present columns). -/
def lookupCol {α : Type} (t : Table α) (c : String) (dflt : α) : α :=
  match t with
  | [] => dflt
  | (d, v) :: rest => if d = c then v else lookupCol rest c dflt

/-- The `for col in reference_columns: if col not in current.columns:
current[col] = 0` loop of `align_feature_columns` (features.py:67-69):
append a constant `zero` column for each reference column not present. -/
def addMissingCols {α : Type} (zero : α) (current : Table α) : List String → Table α
  | [] => current
  | c :: rest =>
      addMissingCols zero
        (if c ∈ colNames current then current else current ++ [(c, zero)]) rest

/-- Embeds `align_feature_columns` (features.py:65-71): add a zero column
for every missing reference column, then select `current[reference_columns]`
(which both reorders and drops extraneous columns). -/
def align_feature_columns {α : Type} (current : Table α) (zero : α)
    (reference_columns : List String) : Table α :=
  let cur := addMissingCols zero current reference_columns
  reference_columns.map (fun c => (c, lookupCol cur c zero))

/-! ### Feature builder: time features (`features.py` build_features) -/

/-- Components of one parsed timestamp as pandas exposes them
(`dt.hour`, `dt.dayofweek` with Monday = 0, `dt.month`). -/
structure PDateTime where
  hour : ℤ
  dayOfWeek : ℤ
  month : ℤ

/-- Result of `pd.to_datetime(value, errors=coerce)` on one row's
`upload_date`: `none` models `NaT` (the value was missing or failed to
parse; `coerce` maps both to `NaT`). -/
abbrev ParsedDate := Option PDateTime

/-- The four time-derived feature values of one row; `none` models NaN in
the built feature frame. -/
structure TimeFeats where
  hour_of_day : Option ℚ
  day_of_week : Option ℚ
  is_weekend : Option ℚ
  month : Option ℚ
deriving DecidableEq

/-- Embeds the time-feature block of `build_features` (features.py:33-41)
for one row of a nonempty batch (an empty batch returns the empty table
before this block).  When the `upload_date` column is absent from the
batch, `out[[...]] = 0` runs while `out` is still a completely empty
frame, creating four zero-row columns; the following assignment of the
length-n caption series reindexes the frame to the batch's index with a
NaN fill, so all four time columns — including `is_weekend` — end up NaN
(`none`) for every row.  When the column is present, the columns come
from the `to_datetime(..., errors=coerce)` series: a `NaT` row yields NaN
for `dt.hour`, `dt.dayofweek` and `dt.month`, while
`is_weekend = day_of_week.isin([5, 6]).astype(int)` is 0 because `isin`
on NaN is false. -/
def buildTimeFeatures (hasUploadDate : Bool) (d : ParsedDate) : TimeFeats :=
  if hasUploadDate then
    match d with
    | some dt =>
        { hour_of_day := some (dt.hour : ℚ)
          day_of_week := some (dt.dayOfWeek : ℚ)
          is_weekend := some (if dt.dayOfWeek = 5 ∨ dt.dayOfWeek = 6 then 1 else 0)
          month := some (dt.month : ℚ) }
    | none =>
        { hour_of_day := none, day_of_week := none, is_weekend := some 0, month := none }
  else
    { hour_of_day := none, day_of_week := none, is_weekend := none, month := none }

/-! ### Engagement predictor: serving path (`predictor.py`) -/

/-- The four fixed recommendation messages of `_get_recommendation`
(predictor.py:334-343), abstracted as their selection buckets. -/
inductive Recommendation
  | excellent
  | good
  | moderate
  | lowQuality
deriving DecidableEq

/-- Embeds `_get_recommendation` (predictor.py:334-343): fixed thresholds
on the virality score select one of four fixed messages. -/
def get_recommendation (virality_score : ℤ) : Recommendation :=
  if virality_score ≥ 80 then .excellent
  else if virality_score ≥ 60 then .good
  else if virality_score ≥ 40 then .moderate
  else .lowQuality

/-- Engagement-rate formula shared by the trained path
(predictor.py:179-182) and the fallback (predictor.py:290):
`(likes+comments)/views*100` when views are positive, else a default 5.0. -/
def engagement_rate_of (likes comments views : ℤ) : ℚ :=
  if 0 < views then ((likes + comments : ℤ) : ℚ) / ((views : ℤ) : ℚ) * 100 else 5

/-- The trained predictor's persisted engagement distribution:
`_engagement_sorted` (ascending) and the `q50` entry of
`_engagement_quantiles`.  `Option.none` at a use site models an instance
on which the attribute is absent (`hasattr` is false, e.g. after a
process restart reload). -/
structure QuantState where
  engagement_sorted : List ℚ
  q50 : ℚ
deriving DecidableEq

/-- Embeds the virality-score block of `predict_post_performance`
(predictor.py:184-198): percentile rank of the predicted total within the
persisted distribution (`arr.searchsorted(total, side=right)` on the
ascending array is the count of elements `≤ total`), then a +5 boost
capped at 100 when the total exceeds the persisted median
(`quantiles.get(q50, 1) or 1`) and the engagement rate exceeds 5.
When the distribution is absent or empty the default 50 is kept. -/
def trained_virality (qs : Option QuantState) (total : ℤ) (engagement_rate : ℚ) : ℤ :=
  match qs with
  | none => 50
  | some s =>
      if s.engagement_sorted.isEmpty then 50
      else
        let n := s.engagement_sorted.length
        let cnt := (s.engagement_sorted.filter (fun x => x ≤ (total : ℚ))).length
        let v := truncToZero ((cnt : ℚ) / (n : ℚ) * 100)
        let median := if s.q50 = 0 then 1 else s.q50
        if (total : ℚ) > median ∧ engagement_rate > 5 then min 100 (v + 5) else v

/-- Result shape of `predict_post_performance` / `_fallback_prediction`.
`has_note` records whether the result carries the extra `note` key that
only the fallback emits ("Prediction based on platform averages (model
not trained yet)"). -/
structure PredictionResult where
  predicted_likes : ℤ
  predicted_comments : ℤ
  predicted_views : ℤ
  predicted_engagement_rate : ℚ
  virality_score : ℤ
  confidence : String
  recommendation : Recommendation
  has_note : Bool
deriving DecidableEq

/-- Raw outputs of the fitted regression models on the aligned, scaled
feature row (`self.model_likes.predict(X_scaled)[0]` etc.); the fitted
gradient-boosted models are opaque, so their outputs are parameters.
`views = none` models `self.model_views` being `None`. -/
structure RawModelOutputs where
  likes : ℚ
  comments : ℚ
  views : Option ℚ

/-- Embeds the trained branch of `predict_post_performance`
(predictor.py:158-208) downstream of the model calls: the
`max(0, int(prediction))` clamping of lines 174-176 (`int` truncates
toward zero), the `pred_likes * 5` views approximation when no views
model exists, the engagement rate, the virality score, and the fields of
the returned dict (`confidence` is `"high"` since `is_trained` holds on
this branch). -/
def predict_post_performance_trained (raw : RawModelOutputs) (qs : Option QuantState) :
    PredictionResult :=
  let pred_likes := max 0 (truncToZero raw.likes)
  let pred_comments := max 0 (truncToZero raw.comments)
  let pred_views :=
    match raw.views with
    | some rv => max 0 (truncToZero rv)
    | none => pred_likes * 5
  let er := engagement_rate_of pred_likes pred_comments pred_views
  { predicted_likes := pred_likes
    predicted_comments := pred_comments
    predicted_views := pred_views
    predicted_engagement_rate := round2 er
    virality_score := trained_virality qs (pred_likes + pred_comments) er
    confidence := "high"
    recommendation := get_recommendation (trained_virality qs (pred_likes + pred_comments) er)
    has_note := false }

/-! ### Engagement predictor: baseline fallback (`_fallback_prediction`) -/

/-- Input of `predict_post_performance` / `_fallback_prediction`:
`post_data.get(platform, instagram)` and `post_data.get(caption, "")`
are already applied. -/
structure PostData where
  platform : String
  caption : String

/-- One entry of the hard-coded `baselines` dict. -/
structure PlatformBaseline where
  likes : ℤ
  comments : ℤ
  views : ℤ
deriving DecidableEq

/-- Embeds the `baselines` table of `_fallback_prediction`
(predictor.py:268-275), including the
`baselines.get(platform, baselines[instagram])` default. -/
def fallback_baselines (platform : String) : PlatformBaseline :=
  if platform = "instagram" then ⟨5000, 150, 25000⟩
  else if platform = "youtube" then ⟨3000, 200, 100000⟩
  else if platform = "facebook" then ⟨2000, 100, 15000⟩
  else if platform = "twitter" then ⟨1500, 80, 50000⟩
  else ⟨5000, 150, 25000⟩

/-- Embeds `_fallback_prediction` (predictor.py:262-302): platform
baselines scaled by the caption-quality multiplier, then
`int(engagement-rate * 10)` capped at 100 as the virality score. -/
def fallback_prediction (post : PostData) : PredictionResult :=
  let caption_length := post.caption.length
  let base := fallback_baselines post.platform
  let m0 : ℚ := 1
  let m1 := if caption_length > 100 then m0 + 2/10 else m0
  let m2 := if post.caption.contains '#' then m1 + 1/10 else m1
  let multiplier :=
    if post.caption.contains '!' || post.caption.contains '?' then m2 + 1/10 else m2
  let pred_likes := truncToZero ((base.likes : ℚ) * multiplier)
  let pred_comments := truncToZero ((base.comments : ℚ) * multiplier)
  let pred_views := truncToZero ((base.views : ℚ) * multiplier)
  let er := engagement_rate_of pred_likes pred_comments pred_views
  let virality := min 100 (truncToZero (er * 10))
  { predicted_likes := pred_likes
    predicted_comments := pred_comments
    predicted_views := pred_views
    predicted_engagement_rate := round2 er
    virality_score := virality
    confidence := "low"
    recommendation := get_recommendation virality
    has_note := true }

/-- The caption-quality multiplier exactly as the claim words it:
`1 + 0.2·[len > 100] + 0.1·[contains #] + 0.1·[contains ! or ?]`. -/
def claim_multiplier (caption : String) : ℚ :=
  1 + (if caption.length > 100 then 2/10 else 0)
    + (if caption.contains '#' then 1/10 else 0)
    + (if caption.contains '!' || caption.contains '?' then 1/10 else 0)

/-! ### Engagement predictor: training (`predictor.py` train) -/

/-- One training row as `train` consumes it, restricted to the target
columns (`likes`, `comments`, `views`); `none` models NaN. -/
structure PredTrainRow where
  likes : Option ℚ
  comments : Option ℚ
  views : Option ℚ
deriving DecidableEq

/-- The target filter of `train` (predictor.py:64): after `fillna(0)`,
keep rows whose `likes > 0` and `comments > 0`. -/
def validTarget (r : PredTrainRow) : Bool :=
  decide (0 < r.likes.getD 0) && decide (0 < r.comments.getD 0)

/-- Ascending insertion, for embedding `np.sort`. -/
def insertAsc (a : ℚ) : List ℚ → List ℚ
  | [] => [a]
  | b :: bs => if a ≤ b then a :: b :: bs else b :: insertAsc a bs

/-- Ascending sort of the engagement totals (`np.sort(engagement_total)`). -/
def sortAsc : List ℚ → List ℚ
  | [] => []
  | a :: rest => insertAsc a (sortAsc rest)

/-- Embeds `np.quantile(a, q)` on an ascending array with the default
linear interpolation: index `h = q·(n-1)`, result
`a[⌊h⌋] + (a[⌊h⌋+1] - a[⌊h⌋])·(h - ⌊h⌋)` (the out-of-range neighbour at
`q = 1` is irrelevant since the fraction is then 0). -/
def npQuantile (a : List ℚ) (q : ℚ) : ℚ :=
  if a.isEmpty then 0
  else
    let h : ℚ := q * ((a.length : ℚ) - 1)
    let lo : ℕ := (⌊h⌋).toNat
    let x := a.getD lo 0
    let y := a.getD (lo + 1) x
    x + (y - x) * (h - (⌊h⌋ : ℚ))

/-- The persisted engagement quantile grid (predictor.py:110-116). -/
structure QuantTable where
  q10 : ℚ
  q25 : ℚ
  q50 : ℚ
  q75 : ℚ
  q90 : ℚ
deriving DecidableEq

/-- Outcome of `EngagementPredictor.train` restricted to its
data-dependent control flow and the persisted quantities; the opaque
scikit-learn fitting (scaling, splitting, model fits, R2 scores) always
succeeds and is not modelled. -/
inductive PredictorTrainResult
  | notEnoughData
  | notEnoughValid
  | success (samples : ℕ) (quantiles : QuantTable)
deriving DecidableEq

/-- Embeds the data path of `train` (predictor.py:44-146): the length
gate against `MIN_TRAIN_SAMPLES_PREDICTOR = 50` (config.py:14), the
`(y_likes > 0) & (y_comments > 0)` target filter (line 64), the
`len(X) < 30` post-filter gate (line 70), and the 10/25/50/75/90
percentiles of `likes + comments` over the filtered rows
(predictor.py:106-118). -/
def predictor_train (df : List PredTrainRow) : PredictorTrainResult :=
  if df.length < 50 then .notEnoughData
  else if (df.filter validTarget).length < 30 then .notEnoughValid
  else
    let valid := df.filter validTarget
    let engagement_sorted :=
      sortAsc (valid.map (fun r => r.likes.getD 0 + r.comments.getD 0))
    .success valid.length
      ⟨npQuantile engagement_sorted (10/100), npQuantile engagement_sorted (25/100),
       npQuantile engagement_sorted (50/100), npQuantile engagement_sorted (75/100),
       npQuantile engagement_sorted (90/100)⟩

/-- The engagement quantile table exactly as the claim words it: the
10/25/50/75/90 percentiles of `likes + comments` computed over exactly
the rows that survive the target filter (`likes > 0` and `comments > 0`
after zero-filling), not over the raw batch. -/
def claim_quantile_table (df : List PredTrainRow) : QuantTable :=
  let filtered :=
    df.filter (fun r => decide (0 < r.likes.getD 0) && decide (0 < r.comments.getD 0))
  let eng := sortAsc (filtered.map (fun r => r.likes.getD 0 + r.comments.getD 0))
  ⟨npQuantile eng (10/100), npQuantile eng (25/100), npQuantile eng (50/100),
   npQuantile eng (75/100), npQuantile eng (90/100)⟩

/-! ### Model persistence (`storage.py`) -/

/-- State of one path on disk: absent, present but undeserialisable
(`joblib.load` raises and the `except` returns `None`), or present with
a payload. -/
inductive FileState (α : Type)
  | missing
  | corrupt
  | ok (payload : α)

/-- The persistence world `load_model` reads: the registry document
(artifact name → the entry's `version`; `none` models a missing or falsy
entry) and the store directory (path → file state). -/
structure Storage (α : Type) where
  registry : String → Option String
  disk : String → FileState α

/-- Embeds `model_filepath` (storage.py:47-48), relative to the store
directory. -/
def model_filepath (name version : String) : String :=
  name ++ "_v" ++ version ++ ".joblib"

/-- Embeds `load_model` (storage.py:96-108): a missing/falsy registry
entry, an unavailable joblib, a missing binary, or a failing
deserialisation all yield `None`; only a readable payload is returned.
The embedded function is total: no outcome raises. -/
def load_model {α : Type} (st : Storage α) (joblibAvailable : Bool) (name : String) :
    Option α :=
  match st.registry name with
  | none => none
  | some version =>
      if joblibAvailable = false then none
      else
        match st.disk (model_filepath name version) with
        | .missing => none
        | .corrupt => none
        | .ok p => some p

/-- Concrete persistence world for the `load_model` witness: the registry
references `anomaly_model` at version 1.0 but its binary is gone. -/
def c9store : Storage ℕ :=
  { registry := fun n => if n = "anomaly_model" then some "1.0" else none
    disk := fun _ => FileState.missing }

/-! ### Anomaly detector (`anomaly_detector.py`) -/

/-- Pandas float value: finite, one of the two infinities, or NaN
(series division by zero yields infinities rather than raising). -/
inductive PFloat
  | val (q : ℚ)
  | inf
  | neginf
  | nan
deriving DecidableEq

/-- Numpy multiplication of a possibly non-finite value by a rational
scalar. -/
def PFloat.scale (x : PFloat) (k : ℚ) : PFloat :=
  match x with
  | .val q => .val (q * k)
  | .inf => if 0 < k then .inf else if k < 0 then .neginf else .nan
  | .neginf => if 0 < k then .neginf else if k < 0 then .inf else .nan
  | .nan => .nan

/-- Python `round(x, 2)` on a possibly non-finite float: infinities and
NaN come back unchanged. -/
def PFloat.round2 : PFloat → PFloat
  | .val q => .val (Pulselytics.round2 q)
  | x => x

/-- Python `round(x, 1)` on a possibly non-finite float. -/
def PFloat.round1 : PFloat → PFloat
  | .val q => .val (Pulselytics.round1 q)
  | x => x

/-- Numpy division of a NaN-able numerator by a finite denominator:
`x/0` is `±inf` for nonzero `x` and NaN for `0/0`; NaN propagates. -/
def pdDiv (numer : Option ℚ) (denom : ℚ) : PFloat :=
  match numer with
  | none => .nan
  | some x =>
      if denom = 0 then
        if 0 < x then .inf else if x < 0 then .neginf else .nan
      else .val (x / denom)

/-- One row of the detector's input frame; numeric fields are `none`
when NaN (or when their column is absent from the batch), the string
fields carry the reporting columns. -/
structure DetRow where
  likes : Option ℚ
  comments : Option ℚ
  views : Option ℚ
  followers : Option ℚ
  shares : Option ℚ
  platform : String
  post_url : String
  upload_date : String
deriving DecidableEq

/-- The detector's data frame: rows plus column-presence flags for the
optional columns the code probes (`followers in df.columns`,
`df.get(shares, 0)`, `views in df`), and the two derived columns that
`detect_anomalies` / `_rule_based_detection` write into the caller's
frame (`none` = column not present). -/
structure DetFrame where
  rows : List DetRow
  hasFollowers : Bool
  hasShares : Bool
  hasViews : Bool
  respCol : Option (List PFloat)
  peakCol : Option (List PFloat)

/-- Embeds the responsiveness-index computation that appears verbatim in
both `detect_anomalies` (anomaly_detector.py:219-220) and
`_rule_based_detection` (anomaly_detector.py:389-390):
`((df[comments] + df.get(shares, 0)) / followers) * 10000` where
`followers = df[followers].fillna(1000)` when the column exists, else a
constant series of 1000.  Note the code divides by `followers` itself: a
present-and-zero followers value reaches the division unchanged. -/
def responsiveness_index (hasFollowers hasShares : Bool) (r : DetRow) : PFloat :=
  let followers : ℚ := if hasFollowers then r.followers.getD 1000 else 1000
  let shares : Option ℚ := if hasShares then r.shares else some 0
  let numer : Option ℚ := r.comments.bind (fun c => shares.map (fun s => c + s))
  (pdDiv numer followers).scale 10000

/-- The responsiveness index exactly as the claim words it:
`(comments + shares) / max(followers, 1) * 10000`. -/
def claim_responsiveness (hasFollowers hasShares : Bool) (r : DetRow) : PFloat :=
  let followers : ℚ := if hasFollowers then r.followers.getD 1000 else 1000
  let shares : Option ℚ := if hasShares then r.shares else some 0
  let numer : Option ℚ := r.comments.bind (fun c => shares.map (fun s => c + s))
  (pdDiv numer (max followers 1)).scale 10000

/-- Row-wise `df[likes] + df[comments]` with NaN propagation. -/
def rowEngagement (r : DetRow) : Option ℚ :=
  r.likes.bind (fun l => r.comments.map (fun c => l + c))

/-- NaN-skipping maximum of a series (`Series.max()`); `none` when the
series is empty or all-NaN. -/
def seriesMax (xs : List (Option ℚ)) : Option ℚ :=
  match xs.filterMap id with
  | [] => none
  | v :: vs => some (vs.foldl max v)

/-- Embeds the peak-performance column
(`(likes+comments) / max_engagement * 100 if max_engagement > 0 else 0`,
anomaly_detector.py:224-225 and 392-393); `NaN > 0` is false, so a
degenerate batch gets the scalar 0 column. -/
def peak_performance (rows : List DetRow) (r : DetRow) : PFloat :=
  match seriesMax (rows.map rowEngagement) with
  | some m =>
      if 0 < m then
        match rowEngagement r with
        | some e => .val (e / m * 100)
        | none => .nan
      else .val 0
  | none => .val 0

/-- The two derived-column writes both detection paths perform on the
caller's frame (`df[responsiveness_index] = ...`,
`df[peak_performance] = ...`). -/
def addDerivedColumns (df : DetFrame) : DetFrame :=
  { df with
    respCol := some (df.rows.map (responsiveness_index df.hasFollowers df.hasShares))
    peakCol := some (df.rows.map (peak_performance df.rows)) }

/-- `Series.mean()`: NaN-skipping; NaN (`none`) when no value remains. -/
def seriesMean (xs : List (Option ℚ)) : Option ℚ :=
  let vs := xs.filterMap id
  if vs.length = 0 then none else some (vs.sum / (vs.length : ℚ))

/-- `Series.std()` (ddof = 1): NaN when fewer than two values remain; the
float square root is the opaque parameter `sqrtQ`. -/
def seriesStd (sqrtQ : ℚ → ℚ) (xs : List (Option ℚ)) : Option ℚ :=
  let vs := xs.filterMap id
  if vs.length < 2 then none
  else
    let n : ℚ := vs.length
    let mean := vs.sum / n
    some (sqrtQ ((vs.map (fun v => (v - mean) * (v - mean))).sum / (n - 1)))

/-- Pandas scalar comparison `x > t` where either side may be NaN
(false on NaN, as in numpy). -/
def optGtOpt (x t : Option ℚ) : Bool :=
  match x, t with
  | some v, some u => decide (u < v)
  | _, _ => false

/-- Pandas scalar comparison `x < t` against a finite threshold
(false on NaN). -/
def optLt (x : Option ℚ) (t : ℚ) : Bool :=
  match x with
  | some v => decide (v < t)
  | none => false

/-- Cached baseline statistics (`calculate_baseline`,
anomaly_detector.py:96-129) after their final NaN→0 cleanup. -/
structure BaselineMetrics where
  avg_likes : ℚ
  std_likes : ℚ
  avg_comments : ℚ
  std_comments : ℚ
  avg_views : ℚ
  std_views : ℚ
  avg_engagement_rate : ℚ
deriving DecidableEq

/-- Embeds `calculate_baseline` (anomaly_detector.py:96-129): means and
stds of likes/comments (and of views when that column exists), the mean
engagement rate `((likes+comments)/views.replace(0,1)).mean()`, then
every NaN replaced by 0. -/
def calculate_baseline (sqrtQ : ℚ → ℚ) (df : DetFrame) : BaselineMetrics :=
  let likes := df.rows.map (·.likes)
  let comments := df.rows.map (·.comments)
  let views := df.rows.map (·.views)
  let er := df.rows.map (fun r =>
    r.likes.bind (fun l => r.comments.bind (fun c =>
      r.views.map (fun v => (l + c) / (if v = 0 then 1 else v)))))
  { avg_likes := (seriesMean likes).getD 0
    std_likes := (seriesStd sqrtQ likes).getD 0
    avg_comments := (seriesMean comments).getD 0
    std_comments := (seriesStd sqrtQ comments).getD 0
    avg_views := if df.hasViews then (seriesMean views).getD 0 else 0
    std_views := if df.hasViews then (seriesStd sqrtQ views).getD 0 else 0
    avg_engagement_rate := if df.hasViews then (seriesMean er).getD 0 else 0 }

/-- The live detector fields that drive `detect_anomalies` control flow:
`is_trained`, and the `baseline_metrics` dict (`none` models the empty
dict that both a freshly constructed and a storage-reloaded instance
carry, since `_load_or_create_detector` never restores baselines). -/
structure DetectorState where
  is_trained : Bool
  baseline_metrics : Option BaselineMetrics

/-- Embeds `_calc_deviation` (anomaly_detector.py:497-501) with NaN-able
value and baseline: a zero baseline short-circuits to 0; a NaN baseline
fails the `== 0` test and the arithmetic propagates NaN; a NaN value
propagates NaN. -/
def calc_deviation (value : Option ℚ) (baseline : Option ℚ) : Option ℚ :=
  match baseline with
  | some b => if b = 0 then some 0 else value.map (fun v => round1 ((v - b) / b * 100))
  | none => none

/-- Embeds `_classify_anomaly_type` (anomaly_detector.py:463-481); every
comparison involving NaN is false, landing on `unusual_pattern`. -/
def classify_anomaly_type (b : BaselineMetrics) (r : DetRow) : String :=
  if optGtOpt r.likes (some (b.avg_likes * 2)) then "viral_spike"
  else if optLt r.likes (b.avg_likes * (3/10)) then "low_performance"
  else if optGtOpt r.comments (some (b.avg_comments * 3)) then "controversial"
  else if (match r.views, rowEngagement r with
           | some v, some e => decide (0 < v) && decide (e / v < 1/100)
           | _, _ => false) then "low_engagement"
  else "unusual_pattern"

/-- Embeds `_calculate_severity` (anomaly_detector.py:483-495). -/
def calculate_severity (anomaly_score : ℚ) : String :=
  if anomaly_score < -(1/2) then "high"
  else if anomaly_score < -(3/10) then "medium"
  else "low"

/-- Embeds the `_safe_int` helpers (anomaly_detector.py:246-254 and
407-415): `None`/NaN give 0, otherwise Python `int` truncation. -/
def safe_int (v : Option ℚ) : ℤ :=
  match v with
  | none => 0
  | some q => truncToZero q

/-- One emitted anomaly record.  The `alert_message` templates are fixed
strings keyed by the anomaly kind; the key is kept as `alert_key` (the
classified type on the ML path, viral/under on the rule-based path). -/
structure Anomaly where
  post_url : String
  platform : String
  date : String
  type : String
  severity : String
  mv_likes : ℤ
  mv_comments : ℤ
  mv_views : ℤ
  mv_responsiveness : PFloat
  mv_peak : PFloat
  dev_likes : Option ℚ
  dev_comments : Option ℚ
  alert_key : String
deriving DecidableEq

/-- The per-row threshold checks of `_rule_based_detection`
(anomaly_detector.py:417-435): likes against `avg ± 3·std` (the upper
bound is NaN when std is NaN, making the check false; the lower bound is
floored at 0, which CPython `max(0, nan)` also yields), and the same for
comments. -/
def rule_row_types (avg_likes std_likes avg_comments std_comments : Option ℚ)
    (r : DetRow) : List String :=
  let likes_upper := avg_likes.bind (fun a => std_likes.map (fun s => a + 3 * s))
  let likes_lower : ℚ :=
    match avg_likes, std_likes with
    | some a, some s => max 0 (a - 3 * s)
    | _, _ => 0
  let comments_upper := avg_comments.bind (fun a => std_comments.map (fun s => a + 3 * s))
  let comments_lower : ℚ :=
    match avg_comments, std_comments with
    | some a, some s => max 0 (a - 3 * s)
    | _, _ => 0
  (if optGtOpt r.likes likes_upper then ["viral_spike"]
   else if optLt r.likes likes_lower then ["low_likes"] else []) ++
  (if optGtOpt r.comments comments_upper then ["high_engagement"]
   else if optLt r.comments comments_lower then ["low_engagement"] else [])

/-- The sort key of `_rule_based_detection`
(`abs(float(deviation.likes.strip('%')))`); a NaN deviation is read as
key 0 (the CPython ordering of NaN keys under `sorted` is not otherwise
observable by any claim). -/
def rule_sort_key (a : Anomaly) : ℚ := |a.dev_likes.getD 0|

/-- Stable descending insertion (CPython `sorted(..., reverse=True)` is
stable). -/
def insertDescBy (key : Anomaly → ℚ) (a : Anomaly) : List Anomaly → List Anomaly
  | [] => [a]
  | b :: bs => if key b ≤ key a then a :: b :: bs else b :: insertDescBy key a bs

/-- Stable descending sort by key. -/
def sortDescBy (key : Anomaly → ℚ) : List Anomaly → List Anomaly
  | [] => []
  | a :: rest => insertDescBy key a (sortDescBy key rest)

/-- Embeds `_rule_based_detection` (anomaly_detector.py:380-461): write
the derived columns into the caller's frame, flag every row outside the
3-sigma bands, and return the top 10 anomalies by absolute
likes-deviation (descending) together with the mutated frame. -/
def rule_based_detection (sqrtQ : ℚ → ℚ) (df : DetFrame) : List Anomaly × DetFrame :=
  let df2 := addDerivedColumns df
  let avg_likes := seriesMean (df.rows.map (·.likes))
  let std_likes := seriesStd sqrtQ (df.rows.map (·.likes))
  let avg_comments := seriesMean (df.rows.map (·.comments))
  let std_comments := seriesStd sqrtQ (df.rows.map (·.comments))
  let anomalies := df.rows.filterMap (fun r =>
    let types := rule_row_types avg_likes std_likes avg_comments std_comments r
    if types.isEmpty then none
    else
      let dev_l := calc_deviation r.likes avg_likes
      some { post_url := r.post_url
             platform := r.platform
             date := r.upload_date
             type := String.intercalate ", " types
             severity := (match dev_l with
                          | some d => if 200 < |d| then "high" else "medium"
                          | none => "medium")
             mv_likes := safe_int r.likes
             mv_comments := safe_int r.comments
             mv_views := safe_int r.views
             mv_responsiveness := (responsiveness_index df.hasFollowers df.hasShares r).round2
             mv_peak := (peak_performance df.rows r).round1
             dev_likes := dev_l
             dev_comments := calc_deviation r.comments avg_comments
             alert_key := if types.contains "viral_spike" then "viral" else "under" })
  ((sortDescBy rule_sort_key anomalies).take 10, df2)

/-- Error escaping the detector: the `KeyError` raised by
`self.baseline_metrics[avg_likes]` on an empty baseline dict. -/
inductive DetectError
  | keyError
deriving DecidableEq

/-- Embeds the IsolationForest block of `detect_anomalies`
(anomaly_detector.py:237-276).  The fitted model is opaque: `flag i`
stands for `predictions[i] == -1` and `score i` for `score_samples[i]`
on row `i`.  Building each flagged row's record reads
`baseline_metrics[avg_likes]` / `[avg_comments]` (deviation dict and
`_classify_anomaly_type`), which raises KeyError when the baseline dict
is empty.  (In the live program a reloaded detector aborts even earlier:
the persisted scaler was fitted on the 4 training features while
detection feeds it 6, so `scaler.transform` raises ValueError before
these lookups — either way an exception escapes the trained path, and
the derived-column writes precede it.) -/
def ml_detection (baseline : Option BaselineMetrics) (flag : ℕ → Bool) (score : ℕ → ℚ)
    (df2 : DetFrame) : Except DetectError (List Anomaly) :=
  (df2.rows.enum.filter (fun p => flag p.1)).mapM (fun p =>
    match baseline with
    | none => .error .keyError
    | some b =>
        .ok { post_url := p.2.post_url
              platform := p.2.platform
              date := p.2.upload_date
              type := classify_anomaly_type b p.2
              severity := calculate_severity (score p.1)
              mv_likes := safe_int p.2.likes
              mv_comments := safe_int p.2.comments
              mv_views := safe_int p.2.views
              mv_responsiveness :=
                (responsiveness_index df2.hasFollowers df2.hasShares p.2).round2
              mv_peak := (peak_performance df2.rows p.2).round1
              dev_likes := calc_deviation p.2.likes (some b.avg_likes)
              dev_comments := calc_deviation p.2.comments (some b.avg_comments)
              alert_key := classify_anomaly_type b p.2 })

/-- Embeds `detect_anomalies` (anomaly_detector.py:195-281), returning
the detection outcome together with the caller's frame as it is left
afterwards (the derived-column writes mutate it in place and happen
before the model loop, so they persist even when the loop raises). -/
def detect_anomalies (st : DetectorState) (flag : ℕ → Bool) (score : ℕ → ℚ)
    (sqrtQ : ℚ → ℚ) (df : DetFrame) : Except DetectError (List Anomaly) × DetFrame :=
  if st.is_trained = false ∧ st.baseline_metrics = none then
    let p := rule_based_detection sqrtQ df
    (.ok p.1, p.2)
  else
    let df2 := addDerivedColumns df
    if st.is_trained then
      (ml_detection st.baseline_metrics flag score df2, df2)
    else
      let p := rule_based_detection sqrtQ df2
      (.ok p.1, p.2)

/-- Outcome of the detector's `train`: the returned insufficient-data
error dict, one of the two exceptions that escape the method, or the
success dict. -/
inductive DetectorTrainResult
  | notEnoughData
  | raisesKeyError
  | raisesValueError
  | success (samples : ℕ)
deriving DecidableEq

/-- Embeds the detector's `train` (anomaly_detector.py:131-193): the
`MIN_TRAIN_SAMPLES_DETECTOR = 30` gate (config.py:15) returns the error
dict before anything else; `calculate_baseline` then caches the baseline
(line 158) ahead of the feature block, so the cached baseline survives
both raising paths.  The feature block reads `df['views']` unguarded
(line 164), raising KeyError when the batch has no views column; and it
leaves the `engagement_rate` column NaN-unfilled (line 165), so any row
with NaN likes, comments or views puts NaN into the feature matrix and
`IsolationForest.fit` raises ValueError.  Only otherwise does the fit
succeed, `is_trained` become true, and the success dict get returned. -/
def detector_train (sqrtQ : ℚ → ℚ) (st : DetectorState) (df : DetFrame) :
    DetectorTrainResult × DetectorState :=
  if df.rows.length < 30 then (.notEnoughData, st)
  else
    let b := calculate_baseline sqrtQ df
    if df.hasViews = false then (.raisesKeyError, ⟨st.is_trained, some b⟩)
    else if df.rows.any (fun r => r.likes.isNone || r.comments.isNone || r.views.isNone) then
      (.raisesValueError, ⟨st.is_trained, some b⟩)
    else (.success df.rows.length, ⟨true, some b⟩)

/-- Whether a raw batch supplies the three target columns the
predictor's `train` reads unguarded (`df['likes']`, `df['comments']`,
`df['views']`, predictor.py:59-61); the scraped batches carry no column
normalisation, so any of them may be absent. -/
structure PredFrameCols where
  hasLikes : Bool
  hasComments : Bool
  hasViews : Bool
deriving DecidableEq

/-- Outcome of the predictor's `train` at the frame level: either the
KeyError that escapes when a target column is absent, or the returned
data-path result. -/
inductive PredictorTrainOutcome
  | raisesKeyError
  | result (r : PredictorTrainResult)
deriving DecidableEq

/-- Embeds the column-access layer of the predictor's `train`: the
length gate (predictor.py:49) fires before any column access; the
target reads at lines 59-61 raise KeyError when a column is absent;
otherwise the data path (`predictor_train`) decides the result. -/
def predictor_train_frame (cols : PredFrameCols) (rows : List PredTrainRow) :
    PredictorTrainOutcome :=
  if rows.length < 50 then .result .notEnoughData
  else if cols.hasLikes && cols.hasComments && cols.hasViews then
    .result (predictor_train rows)
  else .raisesKeyError

/-! ### Concrete fixtures -/

/-- A clean one-row frame (finite likes/comments/views, no
followers/shares columns, derived columns not yet present). -/
def oneRowFrame : DetFrame :=
  { rows := [{ likes := some 10, comments := some 2, views := some 100,
               followers := none, shares := none,
               platform := "instagram", post_url := "u", upload_date := "d" }]
    hasFollowers := false, hasShares := false, hasViews := true
    respCol := none, peakCol := none }

/-- The state `_load_or_create_detector` (anomaly_detector.py:555-563)
produces when persisted models exist: `is_trained` is set but
`baseline_metrics` stays the empty dict of `__init__`. -/
def reloadedDetector : DetectorState :=
  { is_trained := true, baseline_metrics := none }

/-- A row whose followers column is present with value 0. -/
def zeroFollowersRow : DetRow :=
  { likes := some 100, comments := some 5, views := some 0,
    followers := some 0, shares := none,
    platform := "instagram", post_url := "u", upload_date := "d" }

/-- A row whose followers value is missing (so `fillna(1000)` applies). -/
def defaultFollowersRow : DetRow :=
  { likes := some 100, comments := some 3, views := some 0,
    followers := none, shares := none,
    platform := "instagram", post_url := "u", upload_date := "d" }

/-- An `n`-row frame of identical rows in a batch that carries no views
column (the rows' `views` is `none` accordingly). -/
def detFrameOf (n : ℕ) : DetFrame :=
  { rows := List.replicate n
      { likes := some 1, comments := some 1, views := none,
        followers := none, shares := none,
        platform := "p", post_url := "u", upload_date := "d" }
    hasFollowers := false, hasShares := false, hasViews := false
    respCol := none, peakCol := none }

/-- An `n`-row frame with the views column present and clean numeric
values in every row. -/
def detFrameOfViews (n : ℕ) : DetFrame :=
  { rows := List.replicate n
      { likes := some 1, comments := some 1, views := some 1,
        followers := none, shares := none,
        platform := "p", post_url := "u", upload_date := "d" }
    hasFollowers := false, hasShares := false, hasViews := true
    respCol := none, peakCol := none }

end Pulselytics

namespace Pulselytics

/-! ## Lemmas and theorems -/

lemma mem_colNames_cons {α : Type} (d : String) (v : α) (rest : Table α) (c : String) :
    c ∈ colNames ((d, v) :: rest) ↔ c = d ∨ c ∈ colNames rest := by
  simp [colNames]

lemma colNames_append {α : Type} (t u : Table α) :
    colNames (t ++ u) = colNames t ++ colNames u := by
  simp [colNames]

lemma lookupCol_append_left {α : Type} (t u : Table α) (c : String) (dflt : α)
    (h : c ∈ colNames t) : lookupCol (t ++ u) c dflt = lookupCol t c dflt := by
  induction t with
  | nil => simp [colNames] at h
  | cons p rest ih =>
      obtain ⟨d, v⟩ := p
      by_cases hd : d = c
      · simp [lookupCol, hd]
      · have : c ∈ colNames rest := by
          rcases (mem_colNames_cons d v rest c).mp h with h' | h'
          · exact absurd h'.symm hd
          · exact h'
        simp [lookupCol, hd, ih this]

lemma lookupCol_append_right {α : Type} (t u : Table α) (c : String) (dflt : α)
    (h : c ∉ colNames t) : lookupCol (t ++ u) c dflt = lookupCol u c dflt := by
  induction t with
  | nil => simp [lookupCol]
  | cons p rest ih =>
      obtain ⟨d, v⟩ := p
      have hd : d ≠ c := by
        intro hdc
        exact h ((mem_colNames_cons d v rest c).mpr (Or.inl hdc.symm))
      have hrest : c ∉ colNames rest := by
        intro hc
        exact h ((mem_colNames_cons d v rest c).mpr (Or.inr hc))
      simp [lookupCol, hd, ih hrest]

lemma lookupCol_all_zero {α : Type} (t : Table α) (zero : α) (c : String)
    (hall : ∀ p ∈ t, Prod.snd p = zero) (hmem : c ∈ colNames t) :
    lookupCol t c zero = zero := by
  induction t with
  | nil => simp [lookupCol]
  | cons p rest ih =>
      obtain ⟨d, v⟩ := p
      by_cases hd : d = c
      · have : v = zero := hall (d, v) (by simp)
        simp [lookupCol, hd, this]
      · have hmem' : c ∈ colNames rest := by
          rcases (mem_colNames_cons d v rest c).mp hmem with h | h
          · exact absurd h.symm hd
          · exact h
        have step : lookupCol ((d, v) :: rest) c zero = lookupCol rest c zero := by
          simp [lookupCol, hd]
        rw [step]
        exact ih (fun p hp => hall p (List.mem_cons_of_mem _ hp)) hmem'

/-- Structure of the column-adding loop: it only appends constant-`zero`
columns, and afterwards every reference column is present somewhere. -/
lemma addMissingCols_spec {α : Type} (zero : α) :
    ∀ (refs : List String) (current : Table α),
      ∃ extra : Table α,
        addMissingCols zero current refs = current ++ extra ∧
        (∀ p ∈ extra, Prod.snd p = zero) ∧
        (∀ c ∈ refs, c ∈ colNames current ∨ c ∈ colNames extra) := by
  intro refs
  induction refs with
  | nil =>
      intro current
      exact ⟨[], by simp [addMissingCols], by simp, by simp⟩
  | cons c rest ih =>
      intro current
      by_cases hc : c ∈ colNames current
      · obtain ⟨extra, heq, hz, hcov⟩ := ih current
        refine ⟨extra, ?_, hz, ?_⟩
        · simpa [addMissingCols, hc] using heq
        · intro d hd
          rcases List.mem_cons.mp hd with hd' | hd'
          · exact Or.inl (hd' ▸ hc)
          · exact hcov d hd'
      · obtain ⟨extra, heq, hz, hcov⟩ := ih (current ++ [(c, zero)])
        refine ⟨(c, zero) :: extra, ?_, ?_, ?_⟩
        · have : addMissingCols zero current (c :: rest)
              = addMissingCols zero (current ++ [(c, zero)]) rest := by
            simp [addMissingCols, hc]
          rw [this, heq, List.append_assoc]
          rfl
        · intro p hp
          rcases List.mem_cons.mp hp with hp' | hp'
          · simp [hp']
          · exact hz p hp'
        · intro d hd
          rcases List.mem_cons.mp hd with hd' | hd'
          · exact Or.inr ((mem_colNames_cons c zero extra d).mpr (Or.inl hd'))
          · rcases hcov d hd' with h | h
            · rw [colNames_append] at h
              rcases List.mem_append.mp h with h' | h'
              · exact Or.inl h'
              · have : d = c := by simpa [colNames] using h'
                exact Or.inr ((mem_colNames_cons c zero extra d).mpr (Or.inl this))
            · exact Or.inr ((mem_colNames_cons c zero extra d).mpr (Or.inr h))

lemma lookupCol_map_graph {α : Type} (f : String → α) (dflt : α) :
    ∀ (l : List String) (c : String), c ∈ l →
      lookupCol (l.map (fun d => (d, f d))) c dflt = f c := by
  intro l
  induction l with
  | nil => intro c hc; simp at hc
  | cons d rest ih =>
      intro c hc
      by_cases hdc : d = c
      · simp [lookupCol, hdc]
      · rcases List.mem_cons.mp hc with h | h
        · exact absurd h.symm hdc
        · simp [lookupCol, hdc, ih c h]

/-- C2: for every feature table and every reference column list,
`align_feature_columns` returns a table whose columns are exactly the
reference columns in the reference order; a reference column present in
the input keeps its value, an absent one is filled with `0`, and every
input column outside the reference list is dropped (the output has no
other columns).  In particular aligning a single post's feature row to a
training-time `FeatureSchema` never hits a missing column. -/
theorem align_feature_columns_aligns (current : Table ℚ) (reference_columns : List String) :
    colNames (align_feature_columns current 0 reference_columns) = reference_columns ∧
    ∀ c ∈ reference_columns,
      lookupCol (align_feature_columns current 0 reference_columns) c 0 =
        (if c ∈ colNames current then lookupCol current c 0 else 0) := by
  constructor
  · simp [align_feature_columns, colNames, List.map_map, Function.comp_def]
  · intro c hc
    obtain ⟨extra, heq, hz, hcov⟩ := addMissingCols_spec (0 : ℚ) reference_columns current
    have hsel : lookupCol (align_feature_columns current 0 reference_columns) c 0 =
        lookupCol (addMissingCols (0 : ℚ) current reference_columns) c 0 :=
      lookupCol_map_graph
        (fun d => lookupCol (addMissingCols (0 : ℚ) current reference_columns) d 0)
        0 reference_columns c hc
    rw [hsel, heq]
    by_cases hin : c ∈ colNames current
    · rw [lookupCol_append_left _ _ _ _ hin]
      simp [hin]
    · rw [lookupCol_append_right _ _ _ _ hin]
      rcases hcov c hc with h | h
      · exact absurd h hin
      · simp [hin, lookupCol_all_zero extra 0 c hz h]

/-- Witness for `align_feature_columns_aligns` at a concrete table:
the input has columns `a` (kept) and `x` (dropped); the reference list
asks for `a` and `b` (`b` is zero-filled). -/
theorem align_feature_columns_aligns_witness :
    colNames (align_feature_columns [("a", (1 : ℚ)), ("x", 2)] 0 ["a", "b"]) = ["a", "b"] ∧
    lookupCol (align_feature_columns [("a", (1 : ℚ)), ("x", 2)] 0 ["a", "b"]) "b" 0 = 0 ∧
    lookupCol (align_feature_columns [("a", (1 : ℚ)), ("x", 2)] 0 ["a", "b"]) "a" 0 = 1 := by
  refine ⟨(align_feature_columns_aligns _ _).1, ?_, ?_⟩
  · have h := (align_feature_columns_aligns [("a", (1 : ℚ)), ("x", 2)] ["a", "b"]).2 "b"
      (by simp)
    rw [h]
    simp [colNames]
  · have h := (align_feature_columns_aligns [("a", (1 : ℚ)), ("x", 2)] ["a", "b"]).2 "a"
      (by simp)
    rw [h]
    simp [colNames, lookupCol]

/-- C6 counterexample: in a batch where the `upload_date` column is
present, a row whose date is unparseable (`to_datetime(..., coerce)`
turns it into `NaT`) gets NaN — not 0 — for `hour_of_day`, `day_of_week`
and `month`; only `is_weekend` is 0. -/
theorem time_features_nat_row_not_zero :
    (buildTimeFeatures true none).hour_of_day ≠ some 0 ∧
    (buildTimeFeatures true none).day_of_week ≠ some 0 ∧
    (buildTimeFeatures true none).month ≠ some 0 ∧
    (buildTimeFeatures true none).is_weekend = some 0 := by
  refine ⟨?_, ?_, ?_, rfl⟩ <;> simp [buildTimeFeatures]

/-- C6 (amended): in a nonempty batch the time-derived columns are NaN,
not 0, wherever upload-date information is unavailable.  When the
`upload_date` column is absent from the batch, all four columns
(`is_weekend` included) are NaN for every row, because the scalar-0
assignment happens on a zero-row frame that the subsequent caption-series
assignment reindexes with a NaN fill; when the column is present, a row
whose value is missing or unparseable gets NaN for `hour_of_day`,
`day_of_week` and `month` while `is_weekend` is 0.  Either way the
columns become 0 only through the predictor's downstream `fillna(0)`.
For parseable rows `day_of_week` is the pandas weekday numbered
0 = Monday and `is_weekend` is 1 exactly when that weekday is 5 or 6. -/
theorem time_features_spec (dt : PDateTime) :
    (∀ d : ParsedDate, buildTimeFeatures false d = ⟨none, none, none, none⟩) ∧
    buildTimeFeatures true none = ⟨none, none, some 0, none⟩ ∧
    (buildTimeFeatures true (some dt)).day_of_week = some (dt.dayOfWeek : ℚ) ∧
    ((buildTimeFeatures true (some dt)).is_weekend = some 1 ↔
      (dt.dayOfWeek = 5 ∨ dt.dayOfWeek = 6)) := by
  refine ⟨fun d => rfl, rfl, rfl, ?_⟩
  by_cases h : dt.dayOfWeek = 5 ∨ dt.dayOfWeek = 6
  · simp [buildTimeFeatures, h]
  · simp [buildTimeFeatures, h]

/-- C3 counterexample: the code clamps with `max(0, int(prediction))` and
Python `int` truncates toward zero, so on a raw model output of 2.7 the
returned `predicted_likes` is 2, while the claimed formula
`max(0, round(prediction))` gives 3. -/
theorem predict_clamp_truncates_not_rounds :
    (predict_post_performance_trained ⟨27/10, 1, none⟩ none).predicted_likes = 2 ∧
    max 0 (round ((27 : ℚ)/10)) = 3 ∧ (2 : ℤ) ≠ 3 := by
  refine ⟨?_, ?_, by decide⟩
  · show max 0 (truncToZero ((27 : ℚ)/10)) = 2
    norm_num [truncToZero]
  · norm_num [round_eq]

/-- C3 (amended): for every raw model output on the trained path,
`predicted_likes`, `predicted_comments` and `predicted_views` are the
non-negative integers `max(0, int(prediction))`, where `int` truncates
toward zero; and when no views model was trained
`predicted_views = predicted_likes * 5`. -/
theorem predict_clamped_nonneg (raw : RawModelOutputs) (qs : Option QuantState) :
    0 ≤ (predict_post_performance_trained raw qs).predicted_likes ∧
    0 ≤ (predict_post_performance_trained raw qs).predicted_comments ∧
    0 ≤ (predict_post_performance_trained raw qs).predicted_views ∧
    (predict_post_performance_trained raw qs).predicted_likes
      = max 0 (truncToZero raw.likes) ∧
    (predict_post_performance_trained raw qs).predicted_comments
      = max 0 (truncToZero raw.comments) ∧
    (∀ rv, raw.views = some rv →
      (predict_post_performance_trained raw qs).predicted_views = max 0 (truncToZero rv)) ∧
    (raw.views = none →
      (predict_post_performance_trained raw qs).predicted_views =
        (predict_post_performance_trained raw qs).predicted_likes * 5) := by
  obtain ⟨l, c, v⟩ := raw
  cases v with
  | none =>
      refine ⟨le_max_left 0 _, le_max_left 0 _, ?_, rfl, rfl, ?_, fun _ => rfl⟩
      · exact mul_nonneg (le_max_left 0 _) (by norm_num)
      · intro rv h
        simp at h
  | some rv =>
      refine ⟨le_max_left 0 _, le_max_left 0 _, le_max_left 0 _, rfl, rfl, ?_, ?_⟩
      · intro rv' h
        have hrv : rv = rv' := by
          simpa using h
        subst hrv
        rfl
      · intro h
        simp at h

/-- Witness for `predict_clamped_nonneg` at a concrete raw output
(likes 2.5, comments -3, no views model). -/
theorem predict_clamped_nonneg_witness :
    0 ≤ (predict_post_performance_trained ⟨5/2, -3, none⟩ none).predicted_likes ∧
    (predict_post_performance_trained ⟨5/2, -3, none⟩ none).predicted_views =
      (predict_post_performance_trained ⟨5/2, -3, none⟩ none).predicted_likes * 5 :=
  ⟨(predict_clamped_nonneg ⟨5/2, -3, none⟩ none).1,
   (predict_clamped_nonneg ⟨5/2, -3, none⟩ none).2.2.2.2.2.2 rfl⟩

/-- C4 counterexample: the fallback does not apply the trained path's
virality-score formula.  For an instagram post with empty caption the
fallback returns `virality_score = 100` (`min(100, int(20.6 * 10))`),
while the trained path's formula (`trained_virality`, in the
quantile-free state in which the fallback runs) yields the default 50. -/
theorem fallback_virality_differs_from_trained_formula :
    (fallback_prediction ⟨"instagram", ""⟩).virality_score = 100 ∧
    trained_virality none 5150 (103/5) = 50 ∧ (100 : ℤ) ≠ 50 := by
  refine ⟨by with_unfolding_all decide, rfl, by decide⟩

/-- C4 (amended): for every input post, the untrained fallback multiplies
the per-platform hard-coded baseline likes/comments/views by the
caption-quality multiplier (+0.2 if caption length > 100, +0.1 if it
contains `#`, +0.1 if it contains `!` or `?`), applies the same
engagement-rate and recommendation formulas as the trained path, computes
`virality_score = min(100, int(engagement_rate * 10))` (not the trained
path's percentile formula), and returns confidence `"low"` with the
untrained-model note. -/
theorem fallback_prediction_spec (post : PostData) :
    (fallback_prediction post).predicted_likes =
      truncToZero (((fallback_baselines post.platform).likes : ℚ) *
        claim_multiplier post.caption) ∧
    (fallback_prediction post).predicted_comments =
      truncToZero (((fallback_baselines post.platform).comments : ℚ) *
        claim_multiplier post.caption) ∧
    (fallback_prediction post).predicted_views =
      truncToZero (((fallback_baselines post.platform).views : ℚ) *
        claim_multiplier post.caption) ∧
    (fallback_prediction post).predicted_engagement_rate =
      round2 (engagement_rate_of (fallback_prediction post).predicted_likes
        (fallback_prediction post).predicted_comments
        (fallback_prediction post).predicted_views) ∧
    (fallback_prediction post).virality_score =
      min 100 (truncToZero (engagement_rate_of (fallback_prediction post).predicted_likes
        (fallback_prediction post).predicted_comments
        (fallback_prediction post).predicted_views * 10)) ∧
    (fallback_prediction post).confidence = "low" ∧
    (fallback_prediction post).has_note = true ∧
    (fallback_prediction post).recommendation =
      get_recommendation (fallback_prediction post).virality_score := by
  by_cases h1 : post.caption.length > 100 <;>
    by_cases h2 : post.caption.contains '#' = true <;>
      by_cases h3 : (post.caption.contains '!' || post.caption.contains '?') = true <;>
        refine ⟨?_, ?_, ?_, rfl, rfl, rfl, rfl, rfl⟩ <;>
          simp [fallback_prediction, claim_multiplier, h1, h2, h3]

/-- C5: whenever `train` succeeds, the persisted engagement quantile
table is the 10/25/50/75/90 percentile grid of `likes + comments`
computed over exactly the rows surviving the target filter used for
model fitting, not over the raw batch. -/
theorem train_quantiles_over_filtered_rows (df : List PredTrainRow) (s : ℕ) (q : QuantTable)
    (h : predictor_train df = .success s q) : q = claim_quantile_table df := by
  unfold predictor_train at h
  split at h
  · cases h
  · split at h
    · cases h
    · injection h with h1 h2
      rw [← h2]
      rfl

/-- Witness for `train_quantiles_over_filtered_rows`: 50 identical rows
with likes = comments = 1 (all survive the filter); every percentile of
the constant engagement 2 is 2. -/
theorem train_quantiles_over_filtered_rows_witness :
    predictor_train (List.replicate 50 ⟨some 1, some 1, some 0⟩) =
      .success 50 ⟨2, 2, 2, 2, 2⟩ ∧
    (⟨2, 2, 2, 2, 2⟩ : QuantTable) =
      claim_quantile_table (List.replicate 50 ⟨some 1, some 1, some 0⟩) :=
  ⟨by with_unfolding_all decide,
   train_quantiles_over_filtered_rows _ 50 ⟨2, 2, 2, 2, 2⟩ (by with_unfolding_all decide)⟩

/-- C1: the untrained-and-no-baseline guard does delegate entirely to the
rule-based path, but the claimed never-raise guarantee fails on the
remaining states: a detector reloaded from storage (`is_trained` true,
`baseline_metrics` still the empty dict) raises KeyError out of
`detect_anomalies` as soon as the model flags one row, instead of
producing a result. -/
theorem detect_anomalies_reloaded_raises :
    (∀ (flag : ℕ → Bool) (score : ℕ → ℚ) (sqrtQ : ℚ → ℚ) (df : DetFrame),
      detect_anomalies ⟨false, none⟩ flag score sqrtQ df =
        (Except.ok (rule_based_detection sqrtQ df).1, (rule_based_detection sqrtQ df).2)) ∧
    (detect_anomalies reloadedDetector (fun _ => true) (fun _ => 0) (fun q => q)
        oneRowFrame).1 = .error .keyError := by
  exact ⟨fun flag score sqrtQ df => rfl, rfl⟩

/-- C7 counterexample: the code divides by the (defaulted) followers
value itself, with no `max(followers, 1)` floor.  On a row whose
followers column holds 0 the stored responsiveness index is `inf`
(5/0 · 10000 in pandas float semantics), while the claimed formula
`(comments + shares) / max(followers, 1) · 10000` gives 50000. -/
theorem responsiveness_zero_followers_inf :
    responsiveness_index true false zeroFollowersRow = PFloat.inf ∧
    claim_responsiveness true false zeroFollowersRow = PFloat.val 50000 ∧
    PFloat.inf ≠ PFloat.val 50000 := by
  refine ⟨?_, ?_, by simp⟩
  · norm_num [responsiveness_index, zeroFollowersRow, pdDiv, PFloat.scale]
  · norm_num [claim_responsiveness, zeroFollowersRow, pdDiv, PFloat.scale]

/-- C7 (amended): on both detection paths (the single shared computation
`responsiveness_index` embeds the identical lines of `detect_anomalies`
and `_rule_based_detection`) a row's responsiveness index is
`(comments + shares) / followers * 10000`, with the followers value
defaulted to 1000 when the column is absent or the row's value missing,
and shares read as 0 when that column is absent.  No `max(followers, 1)`
floor is applied: the result is the finite rational only under the
hypothesis that the effective followers value is nonzero (a
present-and-zero followers value instead yields an infinite or NaN
index, pandas never raising). -/
theorem responsiveness_index_spec (hasF hasS : Bool) (r : DetRow) (c s : ℚ)
    (hc : r.comments = some c)
    (hs : (if hasS then r.shares else some 0) = some s)
    (hf : (if hasF then r.followers.getD 1000 else 1000) ≠ 0) :
    responsiveness_index hasF hasS r =
      PFloat.val ((c + s) / (if hasF then r.followers.getD 1000 else 1000) * 10000) := by
  simp only [responsiveness_index, hc, hs, Option.bind_some, Option.map_some]
  simp [pdDiv, hf, PFloat.scale]

/-- Witness for `responsiveness_index_spec`: a row with 3 comments, no
shares column, and a missing followers value (defaulted to 1000) gets
index 30. -/
theorem responsiveness_index_spec_witness :
    responsiveness_index true false defaultFollowersRow = PFloat.val 30 := by
  have h := responsiveness_index_spec true false defaultFollowersRow 3 0 rfl rfl
    (by norm_num [defaultFollowersRow])
  rw [h]
  norm_num [defaultFollowersRow]

/-- C10: every non-early-return `detect_anomalies` call (a trained
detector, or an untrained one with a cached baseline) and every
`_rule_based_detection` call writes the two derived columns
`responsiveness_index` and `peak_performance` into the caller's frame;
a frame that lacked them is not left unchanged by detection. -/
theorem detection_writes_derived_columns (st : DetectorState) (flag : ℕ → Bool)
    (score : ℕ → ℚ) (sqrtQ : ℚ → ℚ) (df : DetFrame)
    (h : st.is_trained = true ∨ st.baseline_metrics ≠ none) :
    ((detect_anomalies st flag score sqrtQ df).2.respCol =
        some (df.rows.map (responsiveness_index df.hasFollowers df.hasShares)) ∧
      (detect_anomalies st flag score sqrtQ df).2.peakCol =
        some (df.rows.map (peak_performance df.rows))) ∧
    ((rule_based_detection sqrtQ df).2.respCol =
        some (df.rows.map (responsiveness_index df.hasFollowers df.hasShares)) ∧
      (rule_based_detection sqrtQ df).2.peakCol =
        some (df.rows.map (peak_performance df.rows))) ∧
    (df.respCol = none →
      (detect_anomalies st flag score sqrtQ df).2 ≠ df ∧
        (rule_based_detection sqrtQ df).2 ≠ df) := by
  obtain ⟨tr, bm⟩ := st
  have hdet : (detect_anomalies ⟨tr, bm⟩ flag score sqrtQ df).2.respCol =
        some (df.rows.map (responsiveness_index df.hasFollowers df.hasShares)) ∧
      (detect_anomalies ⟨tr, bm⟩ flag score sqrtQ df).2.peakCol =
        some (df.rows.map (peak_performance df.rows)) := by
    cases tr with
    | true => exact ⟨rfl, rfl⟩
    | false =>
        rcases h with h | h
        · cases h
        · have hbm : ¬ (bm = none) := h
          simp [detect_anomalies, hbm, rule_based_detection, addDerivedColumns]
  refine ⟨hdet, ⟨rfl, rfl⟩, ?_⟩
  intro hnone
  constructor
  · intro heq
    have h2 := congrArg DetFrame.respCol heq
    rw [hdet.1, hnone] at h2
    exact Option.noConfusion h2
  · intro heq
    have h2 := congrArg DetFrame.respCol heq
    rw [hnone] at h2
    exact Option.noConfusion h2

/-- Witness for `detection_writes_derived_columns`: the reloaded
detector on the one-row frame (which lacks the derived columns) returns
a changed frame, on both paths. -/
theorem detection_writes_derived_columns_witness :
    (detect_anomalies reloadedDetector (fun _ => false) (fun _ => 0) (fun q => q)
        oneRowFrame).2 ≠ oneRowFrame ∧
    (rule_based_detection (fun q => q) oneRowFrame).2 ≠ oneRowFrame :=
  (detection_writes_derived_columns reloadedDetector (fun _ => false) (fun _ => 0)
    (fun q => q) oneRowFrame (Or.inl rfl)).2.2 rfl

/-- C8 counterexample: a minimum-size batch that loses no rows to
post-filtering still need not train successfully.  A 30-row batch
without a views column makes the detector's `train` raise KeyError at
its unguarded `df['views']` read instead of returning success, and a
50-row all-valid batch without a views column does the same to the
predictor's `train`. -/
theorem train_min_batch_not_always_success :
    (detector_train (fun q => q) ⟨false, none⟩ (detFrameOf 30)).1 =
      DetectorTrainResult.raisesKeyError ∧
    (∀ s : ℕ, DetectorTrainResult.raisesKeyError ≠ DetectorTrainResult.success s) ∧
    predictor_train_frame ⟨true, true, false⟩ (List.replicate 50 ⟨some 1, some 1, some 0⟩) =
      PredictorTrainOutcome.raisesKeyError := by
  refine ⟨by decide, ?_, by decide⟩
  intro s h
  exact DetectorTrainResult.noConfusion h

/-- C8 (amended): the sample gates are sharp, and the success half holds
under the column/NaN requirements the trainers implicitly impose.  The
predictor (`MIN_TRAIN_SAMPLES_PREDICTOR = 50`) rejects a 49-row batch
before any column access; a 50-row batch whose likes/comments/views
columns are present and which loses no rows to the target filter trains
successfully.  The detector (`MIN_TRAIN_SAMPLES_DETECTOR = 30`) rejects
29 rows; a 30-row batch whose views column is present and whose rows
have no NaN likes/comments/views trains successfully (without those
conditions `train` raises KeyError/ValueError instead of returning a
result, see `train_min_batch_not_always_success`). -/
theorem train_sample_gates :
    (∀ (cols : PredFrameCols) (rows : List PredTrainRow), rows.length = 49 →
      predictor_train_frame cols rows = .result .notEnoughData) ∧
    (∀ (cols : PredFrameCols) (rows : List PredTrainRow),
      cols.hasLikes = true → cols.hasComments = true → cols.hasViews = true →
      rows.length = 50 → (rows.filter validTarget).length = 50 →
      ∃ q, predictor_train_frame cols rows = .result (.success 50 q)) ∧
    (∀ (sqrtQ : ℚ → ℚ) (st : DetectorState) (df : DetFrame), df.rows.length = 29 →
      (detector_train sqrtQ st df).1 = .notEnoughData) ∧
    (∀ (sqrtQ : ℚ → ℚ) (st : DetectorState) (df : DetFrame), df.rows.length = 30 →
      df.hasViews = true →
      (∀ r ∈ df.rows, r.likes ≠ none ∧ r.comments ≠ none ∧ r.views ≠ none) →
      (detector_train sqrtQ st df).1 = .success 30) := by
  refine ⟨?_, ?_, ?_, ?_⟩
  · intro cols rows h
    simp [predictor_train_frame, h]
  · intro cols rows h1 h2 h3 hlen hf
    have hL : ¬ (rows.length < 50) := by omega
    have hflen : ¬ ((rows.filter validTarget).length < 30) := by omega
    refine ⟨claim_quantile_table rows, ?_⟩
    simp only [predictor_train_frame, if_neg hL, h1, h2, h3, Bool.and_self, if_true]
    simp only [predictor_train, if_neg hL, if_neg hflen, hf]
    rfl
  · intro sqrtQ st df h
    simp [detector_train, h]
  · intro sqrtQ st df h hV hrows
    have hlen : ¬ (df.rows.length < 30) := by omega
    have hany : df.rows.any
        (fun r => r.likes.isNone || r.comments.isNone || r.views.isNone) = false := by
      rw [List.any_eq_false]
      intro r hr
      obtain ⟨hl, hc, hv⟩ := hrows r hr
      cases hL : r.likes with
      | none => exact absurd hL hl
      | some a =>
          cases hC : r.comments with
          | none => exact absurd hC hc
          | some b =>
              cases hV2 : r.views with
              | none => exact absurd hV2 hv
              | some c => simp [hL, hC, hV2]
    simp [detector_train, if_neg hlen, hV, hany, h]

/-- Witness for `train_sample_gates` at concrete batches: sizes 49/50
for the predictor (all target columns present, all rows valid) and
29/30 for the detector (views column present, no NaN values). -/
theorem train_sample_gates_witness :
    predictor_train_frame ⟨true, true, true⟩ (List.replicate 49 ⟨some 1, some 1, some 0⟩) =
      .result .notEnoughData ∧
    (∃ q, predictor_train_frame ⟨true, true, true⟩
      (List.replicate 50 ⟨some 1, some 1, some 0⟩) = .result (.success 50 q)) ∧
    (detector_train (fun q => q) ⟨false, none⟩ (detFrameOf 29)).1 = .notEnoughData ∧
    (detector_train (fun q => q) ⟨false, none⟩ (detFrameOfViews 30)).1 = .success 30 :=
  ⟨train_sample_gates.1 _ _ (by simp),
   train_sample_gates.2.1 _ _ rfl rfl rfl (by simp) (by with_unfolding_all decide),
   train_sample_gates.2.2.1 _ _ _ (by simp [detFrameOf]),
   train_sample_gates.2.2.2 _ _ _ (by simp [detFrameOfViews]) rfl
     (by
       intro r hr
       rw [List.eq_of_mem_replicate hr]
       exact ⟨by simp, by simp, by simp⟩)⟩

/-- C9: when the registry references an artifact whose binary payload is
missing from disk or cannot be deserialised, `load_model` returns `None`
(the entry is treated as absent); the embedded function is total, so no
exception escapes. -/
theorem load_model_missing_binary_none {α : Type} (st : Storage α) (jb : Bool)
    (name version : String)
    (href : st.registry name = some version)
    (hmiss : st.disk (model_filepath name version) = .missing ∨
      st.disk (model_filepath name version) = .corrupt) :
    load_model st jb name = none := by
  unfold load_model
  rw [href]
  by_cases hjb : jb = false
  · simp [hjb]
  · rcases hmiss with h | h <;> simp [hjb, h]

/-- Witness for `load_model_missing_binary_none`: the concrete store
whose registry references `anomaly_model` v1.0 with no binary on disk. -/
theorem load_model_missing_binary_none_witness :
    load_model c9store true "anomaly_model" = none :=
  load_model_missing_binary_none c9store true "anomaly_model" "1.0"
    (by simp [c9store]) (Or.inl rfl)

end Pulselytics
